import Mathlib

/-!
Verification of the `BTCommunicator` session/protocol logic (src/__init__.py)
against its specification.  The Python class is shallowly embedded: the
observable state of a `BTCommunicator` instance becomes the structure
`BTState`, event dispatches are logged in an `events` list, and a Python
exception that propagates uncaught out of a method is modelled as an
`Except`-error result.
-/

namespace BTComm

/-- Events registered and dispatched by the communicator
(`register_event_type` calls, src lines 149-154). -/
inductive Event where
  | on_connected
  | on_disconnected
  | on_command_sent
  | on_response
  | on_unknown
  | on_error
  deriving DecidableEq, Repr

/-- A Python exception that is raised and propagates uncaught out of the
enclosing method (there is no handler for it in the source). -/
inductive PyErr where
  | indexError
  deriving DecidableEq, Repr

/-- Observable state of one `BTCommunicator` instance: the Kivy properties of
the class (src lines 62-144) plus a log of dispatched events.  The two stream
handles are abstracted to booleans recording whether `_recv_stream` /
`_send_stream` have been assigned, and `threads_started` counts the reader
threads spawned by `start_reader_stream`. -/
structure BTState where
  is_connected : Bool
  command_buffer : List String
  response_buffer : List String
  c_buf_length : Nat
  r_buf_length : Nat
  unknown : String
  num_of_resends : Int
  is_pingning : Bool
  stopFlag : Bool
  has_recv_stream : Bool
  has_send_stream : Bool
  threads_started : Nat
  device_name : String
  send_reset : Bool
  reset_command : String
  events : List Event
  deriving DecidableEq, Repr

/-- The default property values of the class (src lines 62-144). -/
def defaultState : BTState :=
  { is_connected := false
    command_buffer := []
    response_buffer := []
    c_buf_length := 10
    r_buf_length := 10
    unknown := "UNSUPPORTED COMMAND"
    num_of_resends := 3
    is_pingning := false
    stopFlag := false
    has_recv_stream := false
    has_send_stream := false
    threads_started := 0
    device_name := "HC-06"
    send_reset := true
    reset_command := "RESET"
    events := [] }

/-! Localized message text is loaded from `lang/<language>.json`, which is data
outside `src/`; each constant below stands for the looked-up string and is
abstracted as its key. -/

/-- Localized text `self._lang['messages']['send_error_JavaException']`. -/
def send_error_JavaException : String := "send_error_JavaException"

/-- Localized text `self._lang['messages']['send_error_Unknown']`. -/
def send_error_Unknown : String := "send_error_Unknown"

/-- Localized text `self._lang['messages']['receive_error_IOException']`. -/
def receive_error_IOException : String := "receive_error_IOException"

/-- Localized text `self._lang['messages']['receive_error_JavaException']`. -/
def receive_error_JavaException : String := "receive_error_JavaException"

/-- Localized text `self._lang['messages']['receive_error_Unknown']`. -/
def receive_error_Unknown : String := "receive_error_Unknown"

/-- Localized text `self._lang['messages']['disconnect_error']`. -/
def disconnect_error : String := "disconnect_error"

/-- Localized text `self._lang['messages']['device_name_error']`. -/
def device_name_error : String := "device_name_error"

/-- Localized text `self._lang['messages']['not_android']`. -/
def not_android : String := "not_android"

/-- Assignment to the Kivy `BooleanProperty` `is_connected`.  The Kivy
framework fires the `on_is_connected` handler only when the stored value
actually changes; the handler (src lines 348-350) dispatches
`on_disconnected` when the new value is falsy. -/
def setIsConnected (s : BTState) (b : Bool) : BTState :=
  if s.is_connected = b then s
  else
    if b then { s with is_connected := b }
    else { s with is_connected := b, events := s.events ++ [Event.on_disconnected] }

/-- Embedding of `_add_response` (src lines 308-316).  The sentinel branch
performs `self.command_buffer.pop(0)` — removing the element at index 0, the
head (most recent) — and raises `IndexError` when the buffer is empty; the
other branch performs `pop()` (tail removal) when at capacity and
`insert(0, response)`. -/
def addResponse (s : BTState) (response : String) : Except PyErr BTState :=
  if response = s.unknown then
    match s.command_buffer with
    | [] => Except.error PyErr.indexError
    | _ :: rest =>
      Except.ok { s with command_buffer := rest, events := s.events ++ [Event.on_unknown] }
  else
    if s.response_buffer.length = s.r_buf_length then
      match s.response_buffer with
      | [] => Except.error PyErr.indexError
      | _ :: _ =>
        Except.ok { s with response_buffer := response :: s.response_buffer.dropLast }
    else
      Except.ok { s with response_buffer := response :: s.response_buffer }

/-- Embedding of `_add_command` (src lines 318-322): `pop()` the tail when at
capacity, then `insert(0, command)`. -/
def addCommand (s : BTState) (command : String) : Except PyErr BTState :=
  if s.command_buffer.length = s.c_buf_length then
    match s.command_buffer with
    | [] => Except.error PyErr.indexError
    | _ :: _ =>
      Except.ok { s with command_buffer := command :: s.command_buffer.dropLast }
  else
    Except.ok { s with command_buffer := command :: s.command_buffer }

/-- The pure effect of one `_add_command`-style push on a buffer of capacity
`cap` (evict the tail when at capacity, then insert at the head). -/
def pushEvict (cap : Nat) (buf : List String) (x : String) : List String :=
  if buf.length = cap then x :: buf.dropLast else x :: buf

/-- Folding `pushEvict` over a list of pushed items. -/
def pushAllPure (cap : Nat) (buf : List String) : List String → List String
  | [] => buf
  | x :: rest => pushAllPure cap (pushEvict cap buf x) rest

/-- Repeatedly calling `_add_command` with each element of a list. -/
def pushCommands (s : BTState) : List String → Except PyErr BTState
  | [] => Except.ok s
  | c :: rest =>
    match addCommand s c with
    | Except.ok s1 => pushCommands s1 rest
    | Except.error e => Except.error e

/-- Repeatedly calling `_add_response` with each element of a list. -/
def pushResponses (s : BTState) : List String → Except PyErr BTState
  | [] => Except.ok s
  | r :: rest =>
    match addResponse s r with
    | Except.ok s1 => pushResponses s1 rest
    | Except.error e => Except.error e

/-! Framing: `_stream_reader` extracts a payload from a raw line with
`start = stream.rindex("<") + 1; end = stream.rindex(">", start)` and takes
`stream[start:end]` (src lines 301-306).  Python's `str.rindex(c)` is the
highest index holding `c` (raising `ValueError`, here `Option.none`, when
absent), and `str.rindex(c, start)` the highest such index that is `≥ start`. -/

/-- Index of the last occurrence of `c` in `l`, or `none`. -/
def lastIdx (c : Char) : List Char → Option Nat
  | [] => none
  | x :: xs =>
    match lastIdx c xs with
    | some j => some (j + 1)
    | none => if x = c then some 0 else none

/-- Python `l.rindex(c, start)`: index of the last occurrence of `c` at
position `≥ start`, or `none`. -/
def rindexFrom (c : Char) (start : Nat) (l : List Char) : Option Nat :=
  (lastIdx c (l.drop start)).map (fun j => start + j)

/-- Index of the first occurrence of `c` in `l`, or `none`. -/
def firstIdx (c : Char) : List Char → Option Nat
  | [] => none
  | x :: xs => if x = c then some 0 else (firstIdx c xs).map (fun j => j + 1)

/-- Python `l.index(c, start)`: index of the first occurrence of `c` at
position `≥ start`, or `none`. -/
def indexFrom (c : Char) (start : Nat) (l : List Char) : Option Nat :=
  (firstIdx c (l.drop start)).map (fun j => start + j)

/-- Embedding of the payload extraction in `_stream_reader` (src lines
301-306): substring strictly between the last `'<'` and the last `'>'` at or
after it; `none` when either `rindex` raises `ValueError`.  The delimiters
are hard-coded to `'<'` / `'>'` in the source. -/
def decode (stream : List Char) : Option (List Char) :=
  match lastIdx '<' stream with
  | none => none
  | some i =>
    match rindexFrom '>' (i + 1) stream with
    | none => none
    | some e => some ((stream.drop (i + 1)).take (e - (i + 1)))

/-- Modelled from the spec: the decode rule as §4.1 words it — substring
strictly between the LAST occurrence of the start delimiter and the NEAREST
(first) following end delimiter.  Stated only for comparison with `decode`,
the embedding of the source. -/
def specDecode (stream : List Char) : Option (List Char) :=
  match lastIdx '<' stream with
  | none => none
  | some i =>
    match indexFrom '>' (i + 1) stream with
    | none => none
    | some e => some ((stream.drop (i + 1)).take (e - (i + 1)))

/-! Sender (`send`, src lines 244-273). -/

/-- Outcome of one iteration of the retry loop body (the `try` block,
src lines 254-264): success, a caught `jnius.JavaException` with its message,
or any other caught exception rendered by `sys.exc_info()[0]`. -/
inductive AttemptResult where
  | success
  | javaException (msg : String)
  | otherException (msg : String)
  deriving DecidableEq, Repr

/-- The external transport handle (the socket output stream): the outcome its
`write` would produce on the k-th write call. -/
structure Transport where
  writeResult : Nat → AttemptResult

/-- The line written by `send` (src lines 245-249, 255):
`command`, a space-joined argument list when non-empty, and `"\n"`. -/
def buildLine (command : String) (args : List String) : String :=
  (if args.length > 0 then command ++ " " ++ String.intercalate " " args else command) ++ "\n"

/-- Result of the retry loop of `send`: the `error` flag and `error_message`
after the loop, the number of loop iterations executed, and the number of
transport writes performed. -/
structure LoopOut where
  err : Bool
  msg : String
  iters : Nat
  writes : Nat
  deriving DecidableEq, Repr

/-- The retry loop `for i in range(1, resends)` of `send` (src lines
253-265), run with `n` iterations remaining and `k` the current attempt
ordinal.  A successful attempt breaks out with the error flag cleared; a
failing attempt records the corresponding localized message (kept only if it
is the last), and the flag and message of the final attempt survive the
loop. -/
def sendLoop (attempt : Nat → AttemptResult × Nat) : Nat → Nat → LoopOut
  | _, 0 => ⟨false, "", 0, 0⟩
  | k, n + 1 =>
    match attempt k with
    | (AttemptResult.success, w) => ⟨false, "", 1, w⟩
    | (AttemptResult.javaException m, w) =>
      if n = 0 then ⟨true, send_error_JavaException ++ " " ++ m, 1, w⟩
      else
        let o := sendLoop attempt (k + 1) n
        ⟨o.err, o.msg, o.iters + 1, o.writes + w⟩
    | (AttemptResult.otherException m, w) =>
      if n = 0 then ⟨true, send_error_Unknown ++ " " ++ m, 1, w⟩
      else
        let o := sendLoop attempt (k + 1) n
        ⟨o.err, o.msg, o.iters + 1, o.writes + w⟩

/-- Result of a `send` call: the state afterwards, the number of retry-loop
iterations, the number of transport writes, and either success or the raised
`BTCommunicatorException` message. -/
structure SendOutcome where
  state : BTState
  iters : Nat
  writes : Nat
  result : Except String Unit
  deriving Repr

/-- The code after the retry loop of `send` (src lines 267-273): on a clean
error flag, `_add_command` (an `IndexError` from it would propagate) and the
`on_command_sent` dispatch; on a set flag, the `is_connected = False`
assignment and the raised `BTCommunicatorException` with the last attempt's
message. -/
def sendFinish (s : BTState) (command : String) (o : LoopOut) : SendOutcome :=
  if o.err then
    ⟨setIsConnected s false, o.iters, o.writes, Except.error o.msg⟩
  else
    match addCommand s command with
    | Except.ok s1 =>
      ⟨{ s1 with events := s1.events ++ [Event.on_command_sent] }, o.iters, o.writes,
        Except.ok ()⟩
    | Except.error _ => ⟨s, o.iters, o.writes, Except.error "IndexError"⟩

/-- Embedding of `send` (src lines 244-273), parameterized by the behaviour
`attemptBody` of the loop body (given the written line and the attempt
ordinal, its outcome and how many transport writes it performed).
`resends = tries if tries > 0 else self._num_of_resends`, and the loop runs
over `range(1, resends)`, hence `(resends - 1).toNat` iterations. -/
def send (s : BTState) (command : String) (args : List String) (tries : Int)
    (attemptBody : String → Nat → AttemptResult × Nat) : SendOutcome :=
  sendFinish s command
    (sendLoop (attemptBody (buildLine command args)) 1
      (((if tries > 0 then tries else s.num_of_resends) - 1).toNat))

/-- The loop body as the source actually executes it (src lines 255-256):
the body reads `self.send_stream`, but the class only declares
`_send_stream` (assigned in `_get_socket_stream`, src line 336), so the
attribute lookup raises `AttributeError` — caught by the bare `except` —
before any write on the transport occurs.  Hence the outcome is the
unknown-exception branch with zero transport writes, for every transport. -/
def realAttemptBody (_t : Transport) : String → Nat → AttemptResult × Nat :=
  fun _ _ => (AttemptResult.otherException "AttributeError", 0)

/-- `send` with the loop body the source executes against transport `t`. -/
def sendReal (s : BTState) (command : String) (args : List String) (tries : Int)
    (t : Transport) : SendOutcome :=
  send s command args tries (realAttemptBody t)

/-! Reader loop (`_stream_reader`, src lines 286-306) and session
management. -/

/-- Embedding of `stop_reader_stream` (src lines 210-214): unschedule the
ping when active, then set the stop event. -/
def stopReaderStream (s : BTState) : BTState :=
  if s.is_pingning then { s with is_pingning := false, stopFlag := true }
  else { s with stopFlag := true }

/-- Embedding of `start_reader_stream` (src lines 199-201): clear the stop
event and start one reader thread. -/
def startReaderStream (s : BTState) : BTState :=
  { s with stopFlag := false, threads_started := s.threads_started + 1 }

/-- Outcome of `_recv_stream.readLine()` in the reader loop: a line, or one
of the three caught exception shapes (src lines 293-300). -/
inductive ReadResult where
  | line (l : List Char)
  | ioException (msg : String)
  | javaException (msg : String)
  | otherException (msg : String)
  deriving Repr

/-- Outcome of one iteration of the `while True` loop of `_stream_reader`:
the loop returned (stop flag observed), an exception was raised and
propagates uncaught on the reader thread (killing the loop), or the loop
continues with the session state left by the main-thread-marshalled
`_add_response` call (whose own uncaught exception is the `Except` error). -/
inductive IterOutcome where
  | stopped
  | raised (msg : String) (s : BTState)
  | next (r : Except PyErr BTState)
  deriving Repr

/-- Embedding of one iteration of `_stream_reader` (src lines 286-306): on a
set stop flag, return; while connected, a read failure re-raises a
`BTCommunicatorException` with the localized message (uncaught — no handler
exists on the reader thread — so the state is left untouched and no event is
dispatched); a read line is decoded and, when a span exists, handed to
`_add_response`; a `ValueError` from the extraction is swallowed. -/
def streamReaderIter (s : BTState) (read : ReadResult) : IterOutcome :=
  if s.stopFlag then IterOutcome.stopped
  else if s.is_connected then
    match read with
    | ReadResult.ioException m =>
      IterOutcome.raised (receive_error_IOException ++ " " ++ m) s
    | ReadResult.javaException m =>
      IterOutcome.raised (receive_error_JavaException ++ " " ++ m) s
    | ReadResult.otherException m =>
      IterOutcome.raised (receive_error_Unknown ++ " " ++ m) s
    | ReadResult.line l =>
      match decode l with
      | none => IterOutcome.next (Except.ok s)
      | some payload => IterOutcome.next (addResponse s (String.mk payload))
  else IterOutcome.next (Except.ok s)

/-- Outcome of a `disconnect` call: the state afterwards and the raised
`BTCommunicatorException` message, when one was raised. -/
structure DisconnectOutcome where
  state : BTState
  raised : Option String
  deriving Repr

/-- Embedding of `disconnect` (src lines 183-190), parameterized by whether
closing the receive and send streams fails.  The entire body is one `try`
block: a failing close is caught by the bare `except` and re-raised as a
`BTCommunicatorException` with the localized text, and the trailing
`self.is_connected = False` assignment is then never executed. -/
def disconnect (s : BTState) (recvCloseFails sendCloseFails : Bool) : DisconnectOutcome :=
  let s1 := stopReaderStream s
  if recvCloseFails then ⟨s1, some disconnect_error⟩
  else if sendCloseFails then ⟨s1, some disconnect_error⟩
  else ⟨setIsConnected s1 false, none⟩

/-- The external collaborators of `_get_socket_stream`: whether the platform
bound the Android classes (src lines 163-170), which paired device names
exist, and whether `socket.connect()` and stream creation succeed. -/
structure ConnectEnv where
  android : Bool
  paired : List String
  socketConnectOk : Bool

/-- Embedding of `_get_socket_stream` (src lines 324-343): on Android, scan
the paired devices for the given name; a match creates the socket and
streams and connects (a `JavaException` from `connect()` propagates
uncaught), then stores the two stream handles; no match raises the
device-name error; off Android raises `not_android`.  Nothing else
is mutated: `is_connected`, the reader thread, the histories and the event
log are untouched. -/
def getSocketStream (s : BTState) (env : ConnectEnv) (name : String) :
    Except String BTState :=
  if env.android then
    if env.paired.contains name then
      if env.socketConnectOk then
        Except.ok { s with has_recv_stream := true, has_send_stream := true }
      else Except.error "JavaException"
    else Except.error (device_name_error ++ " " ++ name)
  else Except.error not_android

/-- Embedding of `connect` (src lines 173-174): its whole body is
`self._get_socket_stream(self.device_name)`. -/
def connect (s : BTState) (env : ConnectEnv) : Except String BTState :=
  getSocketStream s env s.device_name

/-- Number of `on_disconnected` entries in an event log. -/
def countDisc : List Event → Nat
  | [] => 0
  | e :: rest => (if e = Event.on_disconnected then 1 else 0) + countDisc rest

/-- A sequence of assignments to the `is_connected` property, each going
through the Kivy property setter. -/
def applyConnectedAssignments (s : BTState) : List Bool → BTState
  | [] => s
  | b :: rest => applyConnectedAssignments (setIsConnected s b) rest

/-- Number of `true → false` transitions a value starting at `cur` undergoes
when assigned the given sequence of values. -/
def transitionsToFalse : Bool → List Bool → Nat
  | _, [] => 0
  | cur, b :: rest => (if cur = true ∧ b = false then 1 else 0) + transitionsToFalse b rest

/-! Helper lemmas about the history-buffer operations. -/

lemma pushEvict_take (cap : Nat) (hcap : 0 < cap) (l : List String) (x : String) :
    pushEvict cap (l.take cap) x = (x :: l).take cap := by
  obtain ⟨m, rfl⟩ : ∃ m, cap = m + 1 := ⟨cap - 1, by omega⟩
  by_cases h : m + 1 ≤ l.length
  · have hlen : (l.take (m + 1)).length = m + 1 := by rw [List.length_take]; omega
    have hd : (l.take (m + 1)).dropLast = l.take m := by
      rw [List.dropLast_eq_take, hlen, Nat.add_sub_cancel, List.take_take]
      congr 1
      omega
    rw [pushEvict, if_pos hlen, hd, List.take_succ_cons]
  · have h1 : l.take (m + 1) = l := List.take_of_length_le (by omega)
    rw [h1, pushEvict, if_neg (by omega),
      List.take_of_length_le (by simp only [List.length_cons]; omega)]

lemma pushAllPure_take (cap : Nat) (hcap : 0 < cap) :
    ∀ (xs q : List String), pushAllPure cap (q.take cap) xs = (xs.reverse ++ q).take cap := by
  intro xs
  induction xs with
  | nil => intro q; simp [pushAllPure]
  | cons x rest ih =>
    intro q
    rw [pushAllPure, pushEvict_take cap hcap q x, ih (x :: q)]
    congr 1
    simp

lemma pushAllPure_nil (cap : Nat) (hcap : 0 < cap) (xs : List String) :
    pushAllPure cap [] xs = xs.reverse.take cap := by
  have h := pushAllPure_take cap hcap xs []
  simpa using h

lemma addCommand_ok (s : BTState) (c : String) (h : 0 < s.c_buf_length) :
    addCommand s c =
      Except.ok { s with command_buffer := pushEvict s.c_buf_length s.command_buffer c } := by
  unfold addCommand pushEvict
  by_cases hl : s.command_buffer.length = s.c_buf_length
  · rw [if_pos hl, if_pos hl]
    cases hb : s.command_buffer with
    | nil => exfalso; rw [hb] at hl; simp at hl; omega
    | cons a l => rfl
  · rw [if_neg hl, if_neg hl]

lemma addResponse_push_ok (s : BTState) (r : String) (hr : r ≠ s.unknown)
    (h : 0 < s.r_buf_length) :
    addResponse s r =
      Except.ok { s with response_buffer := pushEvict s.r_buf_length s.response_buffer r } := by
  unfold addResponse pushEvict
  rw [if_neg hr]
  by_cases hl : s.response_buffer.length = s.r_buf_length
  · rw [if_pos hl, if_pos hl]
    cases hb : s.response_buffer with
    | nil => exfalso; rw [hb] at hl; simp at hl; omega
    | cons a l => rfl
  · rw [if_neg hl, if_neg hl]

lemma pushCommands_ok (cmds : List String) :
    ∀ (s : BTState), 0 < s.c_buf_length →
      pushCommands s cmds =
        Except.ok
          { s with command_buffer := pushAllPure s.c_buf_length s.command_buffer cmds } := by
  induction cmds with
  | nil => intro s _; simp [pushCommands, pushAllPure]
  | cons c rest ih =>
    intro s h
    simp only [pushCommands, addCommand_ok s c h]
    rw [ih { s with command_buffer := pushEvict s.c_buf_length s.command_buffer c }
      (by simpa using h)]
    simp [pushAllPure]

lemma pushResponses_ok (rs : List String) :
    ∀ (s : BTState), 0 < s.r_buf_length → (∀ r ∈ rs, r ≠ s.unknown) →
      pushResponses s rs =
        Except.ok
          { s with response_buffer := pushAllPure s.r_buf_length s.response_buffer rs } := by
  induction rs with
  | nil => intro s _ _; simp [pushResponses, pushAllPure]
  | cons r rest ih =>
    intro s h hr
    simp only [pushResponses,
      addResponse_push_ok s r (hr r (List.mem_cons_self r rest)) h]
    rw [ih { s with response_buffer := pushEvict s.r_buf_length s.response_buffer r }
      (by simpa using h) (by intro x hx; simpa using hr x (List.mem_cons_of_mem r hx))]
    simp [pushAllPure]

lemma addCommand_length_le (s s2 : BTState) (c : String)
    (hle : s.command_buffer.length ≤ s.c_buf_length)
    (h : addCommand s c = Except.ok s2) :
    s2.command_buffer.length ≤ s2.c_buf_length := by
  unfold addCommand at h
  by_cases hl : s.command_buffer.length = s.c_buf_length
  · rw [if_pos hl] at h
    cases hb : s.command_buffer with
    | nil => rw [hb] at h; exact absurd h (by simp)
    | cons a l =>
      rw [hb] at h
      cases h
      rw [hb] at hl
      simp only [List.length_cons] at hl
      simp [hb]
      omega
  · rw [if_neg hl] at h
    cases h
    simp only [List.length_cons]
    omega

lemma addResponse_length_le (s s2 : BTState) (r : String)
    (hc : s.command_buffer.length ≤ s.c_buf_length)
    (hr : s.response_buffer.length ≤ s.r_buf_length)
    (h : addResponse s r = Except.ok s2) :
    s2.command_buffer.length ≤ s2.c_buf_length ∧
      s2.response_buffer.length ≤ s2.r_buf_length := by
  unfold addResponse at h
  by_cases hu : r = s.unknown
  · rw [if_pos hu] at h
    cases hb : s.command_buffer with
    | nil => rw [hb] at h; exact absurd h (by simp)
    | cons a l =>
      rw [hb] at h
      cases h
      rw [hb] at hc
      simp only [List.length_cons] at hc
      constructor
      · simp; omega
      · simpa using hr
  · rw [if_neg hu] at h
    by_cases hl : s.response_buffer.length = s.r_buf_length
    · rw [if_pos hl] at h
      cases hb : s.response_buffer with
      | nil => rw [hb] at h; exact absurd h (by simp)
      | cons a l =>
        rw [hb] at h
        cases h
        rw [hb] at hl
        simp only [List.length_cons] at hl
        constructor
        · simpa using hc
        · simp [hb]; omega
    · rw [if_neg hl] at h
      cases h
      constructor
      · simpa using hc
      · simp only [List.length_cons]; omega

/-- C5: for all capacities C and every sequence of N > C pushes into a
history buffer (Command History, and Response History for non-sentinel
responses), the buffer afterwards holds exactly the C most-recently-pushed
items in most-recent-first order, and each buffer operation preserves the
bound `length ≤ capacity`. -/
theorem history_buffers_bounded :
    (∀ (s : BTState) (cmds : List String), s.command_buffer = [] → 0 < s.c_buf_length →
        s.c_buf_length < cmds.length →
        ∃ s2, pushCommands s cmds = Except.ok s2 ∧
          s2.command_buffer = cmds.reverse.take s.c_buf_length ∧
          s2.command_buffer.length = s.c_buf_length) ∧
    (∀ (s : BTState) (rs : List String), s.response_buffer = [] → 0 < s.r_buf_length →
        s.r_buf_length < rs.length → (∀ r ∈ rs, r ≠ s.unknown) →
        ∃ s2, pushResponses s rs = Except.ok s2 ∧
          s2.response_buffer = rs.reverse.take s.r_buf_length ∧
          s2.response_buffer.length = s.r_buf_length) ∧
    (∀ (s s2 : BTState) (c : String), s.command_buffer.length ≤ s.c_buf_length →
        addCommand s c = Except.ok s2 → s2.command_buffer.length ≤ s2.c_buf_length) ∧
    (∀ (s s2 : BTState) (r : String), s.command_buffer.length ≤ s.c_buf_length →
        s.response_buffer.length ≤ s.r_buf_length → addResponse s r = Except.ok s2 →
        s2.command_buffer.length ≤ s2.c_buf_length ∧
        s2.response_buffer.length ≤ s2.r_buf_length) := by
  refine ⟨?_, ?_, ?_, ?_⟩
  · intro s cmds hemp hcap hlen
    refine ⟨_, pushCommands_ok cmds s hcap, ?_, ?_⟩
    · simp only [hemp, pushAllPure_nil s.c_buf_length hcap cmds]
    · simp only [hemp, pushAllPure_nil s.c_buf_length hcap cmds, List.length_take,
        List.length_reverse]
      omega
  · intro s rs hemp hcap hlen hr
    refine ⟨_, pushResponses_ok rs s hcap hr, ?_, ?_⟩
    · simp only [hemp, pushAllPure_nil s.r_buf_length hcap rs]
    · simp only [hemp, pushAllPure_nil s.r_buf_length hcap rs, List.length_take,
        List.length_reverse]
      omega
  · intro s s2 c hle h
    exact addCommand_length_le s s2 c hle h
  · intro s s2 r hc hr h
    exact addResponse_length_le s s2 r hc hr h

/-- Witness for `history_buffers_bounded` at capacity 2 and three pushes. -/
theorem history_buffers_bounded_witness :
    ∃ s2, pushCommands { defaultState with c_buf_length := 2 } ["a", "b", "c"] =
        Except.ok s2 ∧
      s2.command_buffer = (["a", "b", "c"] : List String).reverse.take 2 ∧
      s2.command_buffer.length = 2 :=
  history_buffers_bounded.1 { defaultState with c_buf_length := 2 } ["a", "b", "c"]
    rfl (by decide) (by decide)

/-! Helper lemmas about `lastIdx` and `decode`. -/

lemma lastIdx_eq_none (c : Char) (l : List Char) (h : c ∉ l) : lastIdx c l = none := by
  induction l with
  | nil => rfl
  | cons x xs ih =>
    rw [List.mem_cons] at h
    push_neg at h
    simp only [lastIdx, ih h.2]
    rw [if_neg (fun hx => h.1 hx.symm)]

lemma lastIdx_append_right (c : Char) (l1 l2 : List Char) (j : Nat)
    (h : lastIdx c l2 = some j) : lastIdx c (l1 ++ l2) = some (l1.length + j) := by
  induction l1 with
  | nil => simpa using h
  | cons x xs ih =>
    simp only [List.cons_append, lastIdx, List.append_eq, ih, List.length_cons,
      Option.some.injEq]
    omega

lemma lastIdx_cons_self (c : Char) (l : List Char) (h : c ∉ l) :
    lastIdx c (c :: l) = some 0 := by
  simp [lastIdx, lastIdx_eq_none c l h]

lemma decode_eq_some (l : List Char) (i e : Nat) (h1 : lastIdx '<' l = some i)
    (h2 : rindexFrom '>' (i + 1) l = some e) :
    decode l = some ((l.drop (i + 1)).take (e - (i + 1))) := by
  simp only [decode, h1, h2]

lemma decode_eq_none_no_start (l : List Char) (h : '<' ∉ l) : decode l = none := by
  simp only [decode, lastIdx_eq_none _ l h]

lemma decode_eq_none_no_end (l : List Char) (i : Nat) (h1 : lastIdx '<' l = some i)
    (h2 : '>' ∉ l.drop (i + 1)) : decode l = none := by
  simp only [decode, h1, rindexFrom, lastIdx_eq_none _ _ h2, Option.map_none']

/-- C2 counterexample: on `"a<X>Y>z"` the source extraction (last `'<'`, then
`rindex` — the LAST `'>'` at or after it) yields `"X>Y"`, while the rule as
the claim words it (nearest following `'>'`) yields `"X"`; the two differ,
refuting the nearest-following-end rule. -/
theorem decode_nearest_end_counterexample :
    decode (("a<X>Y>z").toList) = some (("X>Y").toList) ∧
    specDecode (("a<X>Y>z").toList) = some (("X").toList) ∧
    (some (("X>Y").toList) : Option (List Char)) ≠ some (("X").toList) :=
  ⟨by decide, by decide, by decide⟩

/-- C2 (amended): decoding returns no payload if the line has no `'<'`, or no
`'>'` after its last `'<'`; otherwise it returns the substring strictly
between the LAST occurrence of the start delimiter and the LAST (not the
nearest) occurrence of the end delimiter at or after it; in particular
decoding `"noise<ignored<ACK1>trailing"` yields `"ACK1"`. -/
theorem decode_last_start_last_end :
    (∀ (pre p suf : List Char), '<' ∉ p → '<' ∉ suf → '>' ∉ suf →
        decode (pre ++ '<' :: p ++ '>' :: suf) = some p) ∧
    (∀ l : List Char, '<' ∉ l → decode l = none) ∧
    (∀ (l : List Char) (i : Nat), lastIdx '<' l = some i → '>' ∉ l.drop (i + 1) →
        decode l = none) ∧
    decode (("noise<ignored<ACK1>trailing").toList) = some (("ACK1").toList) := by
  refine ⟨?_, decode_eq_none_no_start, decode_eq_none_no_end, by decide⟩
  intro pre p suf hp hs hgs
  have hne : ('<' : Char) ∉ (p ++ '>' :: suf) := by
    simp only [List.mem_append, List.mem_cons]
    push_neg
    exact ⟨hp, by decide, hs⟩
  have e1 : lastIdx '<' (pre ++ '<' :: p ++ '>' :: suf) = some pre.length := by
    have h0 : lastIdx '<' (('<' :: p) ++ ('>' :: suf)) = some 0 := by
      have hc : ('<' :: p) ++ ('>' :: suf) = '<' :: (p ++ '>' :: suf) := rfl
      rw [hc]
      exact lastIdx_cons_self _ _ hne
    have h1 := lastIdx_append_right '<' pre (('<' :: p) ++ ('>' :: suf)) 0 h0
    simpa using h1
  have e2 : (pre ++ '<' :: p ++ '>' :: suf).drop (pre.length + 1) = p ++ '>' :: suf := by
    have hc : pre ++ '<' :: p ++ '>' :: suf = (pre ++ ['<']) ++ (p ++ '>' :: suf) := by
      simp
    rw [hc]
    have hl : (pre ++ ['<']).length = pre.length + 1 := by simp
    rw [← hl, List.drop_left]
  have e3 : lastIdx '>' (p ++ '>' :: suf) = some p.length := by
    have h0 : lastIdx '>' ('>' :: suf) = some 0 := lastIdx_cons_self _ _ hgs
    have h1 := lastIdx_append_right '>' p ('>' :: suf) 0 h0
    simpa using h1
  have e4 : rindexFrom '>' (pre.length + 1) (pre ++ '<' :: p ++ '>' :: suf) =
      some (pre.length + 1 + p.length) := by
    simp only [rindexFrom, e2, e3, Option.map_some']
  rw [decode_eq_some _ pre.length (pre.length + 1 + p.length) e1 e4, e2]
  have harith : pre.length + 1 + p.length - (pre.length + 1) = p.length := by omega
  rw [harith, List.take_left]

/-- Witness for `decode_last_start_last_end` on the claim's example, split at
its last start delimiter. -/
theorem decode_last_start_last_end_witness :
    decode (("noise<ignored").toList ++ '<' :: ("ACK1").toList ++ '>' :: ("trailing").toList) =
      some (("ACK1").toList) :=
  decode_last_start_last_end.1 (("noise<ignored").toList) (("ACK1").toList)
    (("trailing").toList) (by decide) (by decide) (by decide)

/-- C3 counterexample: with Command History `["CMD_A", "CMD_B"]` (most-recent
first), receiving the sentinel executes `self.command_buffer.pop(0)` — index
0 is the HEAD, the most recent entry — so `"CMD_A"` is removed and
`["CMD_B"]` remains, not `["CMD_A"]` as the claim states. -/
theorem unknown_pops_newest_counterexample :
    addResponse { defaultState with command_buffer := ["CMD_A", "CMD_B"] }
        "UNSUPPORTED COMMAND" =
      Except.ok
        { defaultState with command_buffer := ["CMD_B"], events := [Event.on_unknown] } ∧
    (["CMD_B"] : List String) ≠ ["CMD_A"] :=
  ⟨rfl, by decide⟩

/-- C3 (amended): for every non-empty Command History, receiving the
configured unsupported-command sentinel removes the MOST RECENT (head)
entry — not the oldest — and dispatches exactly one `on_unknown`
notification; with `["CMD_A", "CMD_B"]` (most-recent first) it removes
`"CMD_A"`, leaving `["CMD_B"]`. -/
theorem unknown_pops_newest (s : BTState) (c : String) (rest : List String)
    (h : s.command_buffer = c :: rest) :
    addResponse s s.unknown =
      Except.ok
        { s with command_buffer := rest, events := s.events ++ [Event.on_unknown] } := by
  unfold addResponse
  rw [if_pos rfl, h]

/-- Witness for `unknown_pops_newest` on the claim's example history. -/
theorem unknown_pops_newest_witness :
    addResponse { defaultState with command_buffer := ["CMD_A", "CMD_B"] }
        ({ defaultState with command_buffer := ["CMD_A", "CMD_B"] } : BTState).unknown =
      Except.ok
        { defaultState with command_buffer := ["CMD_B"], events := [Event.on_unknown] } :=
  unknown_pops_newest { defaultState with command_buffer := ["CMD_A", "CMD_B"] }
    "CMD_A" ["CMD_B"] rfl

/-- C9 counterexample: receiving the sentinel with an empty Command History
executes `pop(0)` on an empty list, raising an `IndexError` that no handler
in the source catches — it is neither a no-op nor an explicit no-entry
signal. -/
theorem unknown_empty_buffer_counterexample :
    addResponse defaultState "UNSUPPORTED COMMAND" = Except.error PyErr.indexError :=
  rfl

/-- C9 (amended): for every state whose Command History is empty, receiving
the configured sentinel raises an uncaught `IndexError` from
`command_buffer.pop(0)` instead of being a no-op or an explicit no-entry
signal. -/
theorem unknown_empty_buffer_raises (s : BTState) (h : s.command_buffer = []) :
    addResponse s s.unknown = Except.error PyErr.indexError := by
  unfold addResponse
  rw [if_pos rfl, h]

/-- Witness for `unknown_empty_buffer_raises` at the default state. -/
theorem unknown_empty_buffer_raises_witness :
    addResponse defaultState defaultState.unknown = Except.error PyErr.indexError :=
  unknown_empty_buffer_raises defaultState rfl

/-- C6 counterexample: on a connected session whose receive-stream close
fails, `disconnect` raises the wrapped disconnect error, yet the state keeps
`is_connected = true` — the status does not become Disconnected, because the
`self.is_connected = False` assignment sits after the close calls in the
same `try` block. -/
theorem disconnect_close_failure_counterexample :
    (disconnect { defaultState with is_connected := true } true false).raised =
        some disconnect_error ∧
    (disconnect { defaultState with is_connected := true } true false).state.is_connected =
        true :=
  ⟨rfl, rfl⟩

/-- C6 (amended): for every disconnect call in which closing either stream
fails, the failure is wrapped as the localized disconnect error and raised
to the caller, but the local Session status does NOT become Disconnected:
`is_connected` keeps its prior value and no notification is dispatched,
because the status assignment follows the closes inside the same `try`
block and is skipped. -/
theorem disconnect_close_failure_keeps_status (s : BTState)
    (recvFails sendFails : Bool) (h : recvFails = true ∨ sendFails = true) :
    (disconnect s recvFails sendFails).raised = some disconnect_error ∧
    (disconnect s recvFails sendFails).state.is_connected = s.is_connected ∧
    (disconnect s recvFails sendFails).state.events = s.events := by
  have hs1 : (stopReaderStream s).is_connected = s.is_connected ∧
      (stopReaderStream s).events = s.events := by
    unfold stopReaderStream
    by_cases hp : s.is_pingning
    · rw [if_pos hp]; exact ⟨rfl, rfl⟩
    · rw [if_neg hp]; exact ⟨rfl, rfl⟩
  cases recvFails with
  | true => exact ⟨rfl, hs1.1, hs1.2⟩
  | false =>
    cases sendFails with
    | true => exact ⟨rfl, hs1.1, hs1.2⟩
    | false => simp at h

/-- Witness for `disconnect_close_failure_keeps_status` with both closes
failing on a connected session. -/
theorem disconnect_close_failure_keeps_status_witness :
    (disconnect { defaultState with is_connected := true } true true).raised =
        some disconnect_error ∧
    (disconnect { defaultState with is_connected := true } true true).state.is_connected =
        true ∧
    (disconnect { defaultState with is_connected := true } true true).state.events = [] :=
  disconnect_close_failure_keeps_status { defaultState with is_connected := true }
    true true (Or.inl rfl)

/-- C7 counterexample: one reader-loop iteration on a connected,
not-stopped session whose line-read fails with an I/O error raises the
wrapped receive error with the state untouched: `is_connected` is still
true (no Disconnected transition) and no `on_error` notification is
dispatched, contrary to the claim. -/
theorem reader_ioerror_counterexample :
    streamReaderIter { defaultState with is_connected := true }
        (ReadResult.ioException "boom") =
      IterOutcome.raised (receive_error_IOException ++ " " ++ "boom")
        { defaultState with is_connected := true } ∧
    ({ defaultState with is_connected := true } : BTState).is_connected = true ∧
    ({ defaultState with is_connected := true } : BTState).events = [] :=
  ⟨rfl, rfl, rfl⟩

/-- C7 (amended): for every connected, not-stopped state, a read failure of
any of the three caught shapes makes the reader-loop iteration raise a
`BTCommunicatorException` carrying the corresponding localized message; the
exception propagates uncaught on the reader thread (stopping the loop), the
Session state is left unchanged — `is_connected` is not forced to false —
and no `on_error` notification is dispatched. -/
theorem reader_ioerror_raises (s : BTState) (m : String) (h1 : s.stopFlag = false)
    (h2 : s.is_connected = true) :
    streamReaderIter s (ReadResult.ioException m) =
      IterOutcome.raised (receive_error_IOException ++ " " ++ m) s ∧
    streamReaderIter s (ReadResult.javaException m) =
      IterOutcome.raised (receive_error_JavaException ++ " " ++ m) s ∧
    streamReaderIter s (ReadResult.otherException m) =
      IterOutcome.raised (receive_error_Unknown ++ " " ++ m) s := by
  refine ⟨?_, ?_, ?_⟩ <;> simp [streamReaderIter, h1, h2]

/-- Witness for `reader_ioerror_raises` on a connected default session. -/
theorem reader_ioerror_raises_witness :
    streamReaderIter { defaultState with is_connected := true }
        (ReadResult.ioException "io failure") =
      IterOutcome.raised (receive_error_IOException ++ " " ++ "io failure")
        { defaultState with is_connected := true } :=
  (reader_ioerror_raises { defaultState with is_connected := true } "io failure"
    rfl rfl).1

/-! C8: the derived `on_disconnected` notification. -/

lemma countDisc_append (l1 l2 : List Event) :
    countDisc (l1 ++ l2) = countDisc l1 + countDisc l2 := by
  induction l1 with
  | nil => simp [countDisc]
  | cons e rest ih => simp [countDisc, ih, Nat.add_assoc]

lemma setIsConnected_is_connected (s : BTState) (b : Bool) :
    (setIsConnected s b).is_connected = b := by
  unfold setIsConnected
  by_cases h : s.is_connected = b
  · rw [if_pos h]; exact h
  · rw [if_neg h]; cases b <;> rfl

lemma countDisc_setIsConnected (s : BTState) (b : Bool) :
    countDisc (setIsConnected s b).events =
      countDisc s.events + (if s.is_connected = true ∧ b = false then 1 else 0) := by
  cases hb : s.is_connected <;> cases b <;>
    simp [setIsConnected, hb, countDisc_append, countDisc]

/-- C8: every assignment to `is_connected` goes through the Kivy property
setter, which fires the `on_is_connected` handler only on a value change;
hence over any sequence of assignments (explicit disconnect, send failure,
or any other cause) the number of `on_disconnected` notifications emitted
equals exactly the number of Connected-to-Disconnected transitions of the
stored value — one per transition, never one per individual failed
operation. -/
theorem on_disconnected_per_transition (s : BTState) (bs : List Bool) :
    countDisc (applyConnectedAssignments s bs).events =
      countDisc s.events + transitionsToFalse s.is_connected bs := by
  induction bs generalizing s with
  | nil => simp [applyConnectedAssignments, transitionsToFalse]
  | cons b rest ih =>
    rw [applyConnectedAssignments, ih (setIsConnected s b), countDisc_setIsConnected,
      transitionsToFalse, setIsConnected_is_connected, Nat.add_assoc]

/-! C1, C10: the Sender. -/

/-- C1 (evaluating the code at the failing input): sending `"PING"` with
`tries = 3` on a connected session runs `range(1, 3)` — exactly 2 retry
iterations — but, because `send` reads the nonexistent attribute
`self.send_stream` while the handle is stored in `self._send_stream`, every
iteration raises `AttributeError` before reaching the transport: for EVERY
transport zero transport writes occur, the raised error carries the generic
unknown-failure text naming `AttributeError` rather than the transport's
I/O failure, the status becomes Disconnected, and exactly one
`on_disconnected` fires. -/
theorem send_tries3_attribute_error (s : BTState) (t : Transport)
    (h : s.is_connected = true) :
    (sendReal s "PING" [] 3 t).iters = 2 ∧
    (sendReal s "PING" [] 3 t).writes = 0 ∧
    (sendReal s "PING" [] 3 t).result =
      Except.error (send_error_Unknown ++ " " ++ "AttributeError") ∧
    (sendReal s "PING" [] 3 t).state.is_connected = false ∧
    (sendReal s "PING" [] 3 t).state.events = s.events ++ [Event.on_disconnected] := by
  have e : sendReal s "PING" [] 3 t =
      ⟨setIsConnected s false, 2, 0,
        Except.error (send_error_Unknown ++ " " ++ "AttributeError")⟩ := rfl
  rw [e]
  refine ⟨rfl, rfl, rfl, ?_, ?_⟩
  · simp [setIsConnected, h]
  · simp [setIsConnected, h]

/-- Witness for `send_tries3_attribute_error` on a connected default session
and a transport whose write always fails. -/
theorem send_tries3_attribute_error_witness :
    (sendReal { defaultState with is_connected := true } "PING" [] 3
        ⟨fun _ => AttemptResult.javaException "write failed"⟩).iters = 2 ∧
    (sendReal { defaultState with is_connected := true } "PING" [] 3
        ⟨fun _ => AttemptResult.javaException "write failed"⟩).writes = 0 ∧
    (sendReal { defaultState with is_connected := true } "PING" [] 3
        ⟨fun _ => AttemptResult.javaException "write failed"⟩).result =
      Except.error (send_error_Unknown ++ " " ++ "AttributeError") ∧
    (sendReal { defaultState with is_connected := true } "PING" [] 3
        ⟨fun _ => AttemptResult.javaException "write failed"⟩).state.is_connected = false ∧
    (sendReal { defaultState with is_connected := true } "PING" [] 3
        ⟨fun _ => AttemptResult.javaException "write failed"⟩).state.events =
      [Event.on_disconnected] :=
  send_tries3_attribute_error { defaultState with is_connected := true }
    ⟨fun _ => AttemptResult.javaException "write failed"⟩ rfl

lemma sendFinish_ok (s : BTState) (command : String) (o : LoopOut)
    (he : o.err = false) (h2 : 0 < s.c_buf_length) :
    sendFinish s command o =
      ⟨{ s with command_buffer := pushEvict s.c_buf_length s.command_buffer command, events := s.events ++ [Event.on_command_sent] },
        o.iters, o.writes, Except.ok ()⟩ := by
  unfold sendFinish
  rw [he, if_neg (by simp), addCommand_ok s command h2]

/-- C10: with an effective retry count of 1 (`tries = 1`, or `tries ≤ 0`
with the configured `_num_of_resends` equal to 1), `range(1, 1)` is empty,
so `send` performs ZERO loop iterations and ZERO transport writes — nothing
is ever written — yet the error flag stays false: the command is pushed
onto the Command History, `on_command_sent` is dispatched, the connection
status is untouched, and the call reports success. -/
theorem send_single_try_no_write (s : BTState) (command : String)
    (args : List String) (tries : Int)
    (attemptBody : String → Nat → AttemptResult × Nat)
    (h1 : tries = 1 ∨ (tries ≤ 0 ∧ s.num_of_resends = 1))
    (h2 : 0 < s.c_buf_length) :
    (send s command args tries attemptBody).iters = 0 ∧
    (send s command args tries attemptBody).writes = 0 ∧
    (send s command args tries attemptBody).result = Except.ok () ∧
    (send s command args tries attemptBody).state.command_buffer =
      pushEvict s.c_buf_length s.command_buffer command ∧
    (send s command args tries attemptBody).state.events =
      s.events ++ [Event.on_command_sent] ∧
    (send s command args tries attemptBody).state.is_connected = s.is_connected := by
  have hres : (if tries > 0 then tries else s.num_of_resends) = 1 := by
    rcases h1 with h | ⟨h, h3⟩
    · rw [if_pos (by omega)]; exact h
    · rw [if_neg (by omega)]; exact h3
  have e0 : (((if tries > 0 then tries else s.num_of_resends) - 1)).toNat = 0 := by
    rw [hres]
    decide
  have e1 : send s command args tries attemptBody = sendFinish s command ⟨false, "", 0, 0⟩ := by
    unfold send
    rw [e0]
    rfl
  rw [e1, sendFinish_ok s command ⟨false, "", 0, 0⟩ rfl h2]
  exact ⟨rfl, rfl, rfl, rfl, rfl, rfl⟩

/-- Witness for `send_single_try_no_write` at `tries = 1` on the default
session with a loop body that would fail if it ever ran. -/
theorem send_single_try_no_write_witness :
    (send defaultState "RESET" [] 1
        (fun _ _ => (AttemptResult.javaException "write failed", 1))).iters = 0 ∧
    (send defaultState "RESET" [] 1
        (fun _ _ => (AttemptResult.javaException "write failed", 1))).writes = 0 ∧
    (send defaultState "RESET" [] 1
        (fun _ _ => (AttemptResult.javaException "write failed", 1))).result =
      Except.ok () ∧
    (send defaultState "RESET" [] 1
        (fun _ _ => (AttemptResult.javaException "write failed", 1))).state.command_buffer =
      pushEvict 10 [] "RESET" ∧
    (send defaultState "RESET" [] 1
        (fun _ _ => (AttemptResult.javaException "write failed", 1))).state.events =
      [Event.on_command_sent] ∧
    (send defaultState "RESET" [] 1
        (fun _ _ => (AttemptResult.javaException "write failed", 1))).state.is_connected =
      false :=
  send_single_try_no_write defaultState "RESET" [] 1
    (fun _ _ => (AttemptResult.javaException "write failed", 1))
    (Or.inl rfl) (by decide)

/-! C4: `connect`. -/

/-- C4 (evaluating the code at the failing input): on Android with the
configured device paired and the socket connecting successfully, `connect`
succeeds and stores the two stream handles — but nothing else happens: the
status is NOT set to Connected, no reader thread is started, no reset
command is sent (`send_reset` is never even read and the Command History is
unchanged), and no `on_connected` notification is dispatched.  Only the
device-not-found half of the claim holds: with no matching paired device,
`connect` fails with the device-name error. -/
theorem connect_stores_streams_only (s : BTState) (env : ConnectEnv)
    (ha : env.android = true) (hp : env.paired.contains s.device_name = true)
    (hc : env.socketConnectOk = true) :
    (connect s env =
      Except.ok { s with has_recv_stream := true, has_send_stream := true }) ∧
    ({ s with has_recv_stream := true, has_send_stream := true } : BTState).is_connected =
      s.is_connected ∧
    ({ s with has_recv_stream := true, has_send_stream := true } : BTState).threads_started =
      s.threads_started ∧
    ({ s with has_recv_stream := true, has_send_stream := true } : BTState).command_buffer =
      s.command_buffer ∧
    ({ s with has_recv_stream := true, has_send_stream := true } : BTState).events =
      s.events ∧
    (∀ env2 : ConnectEnv, env2.android = true →
      env2.paired.contains s.device_name = false →
      connect s env2 = Except.error (device_name_error ++ " " ++ s.device_name)) := by
  refine ⟨?_, rfl, rfl, rfl, rfl, ?_⟩
  · have hp1 : s.device_name ∈ env.paired := by simpa using hp
    simp [connect, getSocketStream, ha, hp1, hc]
  · intro env2 ha2 hp2
    have hp3 : s.device_name ∉ env2.paired := by simpa using hp2
    simp [connect, getSocketStream, ha2, hp3]

/-- Witness for `connect_stores_streams_only` with the default device name
paired on Android. -/
theorem connect_stores_streams_only_witness :
    connect defaultState ⟨true, ["HC-06"], true⟩ =
      Except.ok { defaultState with has_recv_stream := true, has_send_stream := true } :=
  (connect_stores_streams_only defaultState ⟨true, ["HC-06"], true⟩ rfl (by decide) rfl).1

end BTComm
